import Mathlib

/-!
Verification of the network-constrained movement and trajectory engine
(`src/models/location.py`, `src/models/trajectory.py`,
`src/models/playing_field.py`, `src/models/strategy.py`,
`src/functions/graph_geometry_functions.py`).

The Python code is shallowly embedded: planar/geographic coordinates are
rational pairs, shapely geometries are coordinate lists, the networkx
multigraph is an explicit edge list, and mutation is explicit state passing.
Euclidean segment length is irrational in general, so every arc-length
operation is parameterised by a `Metric` carrying the segment-length
function together with the two coordinate reprojections; comparisons of
(unsquared) planar distances in the source are embedded as comparisons of
squared distances, which order identically.  Code that can raise a Python
exception is embedded in an `Except PyError` result.
-/

namespace Loop

/-- A coordinate pair `(x, y)`, the embedding of a shapely point or of one
entry of a `LineString.coords` sequence. -/
abbrev Coord := ℚ × ℚ

/-- Graph node identifier (`osmnx` node ids are integers). -/
abbrev Node := ℕ

/-- The geometric context of a playing field: the planar segment-length
function (euclidean length, irrational in general, hence a parameter) and
the two reprojections used by `ox.projection.project_geometry` (`toProj`:
geographic to the graph CRS, `toGeo`: graph CRS back to lat/long). -/
structure Metric where
  segLen : Coord → Coord → ℚ
  toProj : Coord → Coord
  toGeo : Coord → Coord

/-- Python exception classes that the embedded code can raise. -/
inductive PyError where
  /-- `KeyError` / missing dictionary entry. -/
  | keyError : PyError
  /-- `TypeError`, e.g. subscripting or membership-testing `None`. -/
  | typeError : PyError
  /-- Attribute access on `None`. -/
  | attrError : PyError
  /-- `ox.nearest_edges` on a graph without edges. -/
  | noNearestEdge : PyError
deriving DecidableEq

/-! ## Location (`src/models/location.py`) -/

/-- `Location`: a geographic coordinate plus creation timestamp (modelled as
rational seconds).  `Location(y, x)` stamps the current time. -/
structure Location where
  y : ℚ
  x : ℚ
  timestamp : ℚ
deriving DecidableEq

/-- `Location.__eq__`: `self.y == other.y and self.x == other.x`. -/
def locEqb (a b : Location) : Bool :=
  a.y == b.y && a.x == b.x

/-- `Location.__hash__`: `hash((self.y, self.x))`.  The Python builtin tuple
hash is an external function of the pair, taken here as the parameter
`hashPair`. -/
def locHash (hashPair : ℚ × ℚ → ℤ) (a : Location) : ℤ :=
  hashPair (a.y, a.x)

/-! ## Trajectory (`src/models/trajectory.py`) -/

/-- `Trajectory`: `self.geometry` is `None` or a `LineString`, i.e. an
optional coordinate list. -/
structure Trajectory where
  geometry : Option (List Coord)
deriving DecidableEq

/-- `Trajectory.update(sub_trajectory)`.  The source compares
`self.geometry.coords[-1] == sub_trajectory.coords[0]` (exact equality) and
either drops the shared first point of the sub-path or appends the sub-path
unchanged.  `coords[-1]`/`coords[0]` are embedded as `getLast?`/`head?`;
on the empty lists, where Python would raise `IndexError`, both are `none`
(the claims are stated on the non-crashing domain). -/
def Trajectory.update (t : Trajectory) (sub : List Coord) : Trajectory :=
  match t.geometry with
  | none => ⟨some sub⟩
  | some coords =>
    if coords.getLast? = sub.head? then ⟨some (coords ++ sub.tail)⟩
    else ⟨some (coords ++ sub)⟩

/-- `Trajectory.start_point`: `None` if there is no geometry, else the first
coordinate. -/
def Trajectory.startPoint (t : Trajectory) : Option Coord :=
  match t.geometry with
  | none => none
  | some coords => coords.head?

/-- `Trajectory.last_known_point`: `None` if there is no geometry, else the
last coordinate. -/
def Trajectory.lastKnownPoint (t : Trajectory) : Option Coord :=
  match t.geometry with
  | none => none
  | some coords => coords.getLast?

/-- `Trajectory.is_empty`: geometry is `None` or has no coordinates. -/
def Trajectory.isEmpty (t : Trajectory) : Bool :=
  match t.geometry with
  | none => true
  | some coords => coords.isEmpty

/-! ## Planar geometry primitives (shapely operations used by the engine) -/

/-- Squared euclidean distance between two planar points (`Point.distance`
squared; only comparisons of distances occur in the source, and squared
distances order identically). -/
def sqDist (p q : Coord) : ℚ :=
  (p.1 - q.1) ^ 2 + (p.2 - q.2) ^ 2

/-- Parameter `t ∈ [0, 1]` of the orthogonal projection of `p` onto the
segment from `a` to `b`, clamped to the segment. -/
def projParam (a b p : Coord) : ℚ :=
  let dx := b.1 - a.1
  let dy := b.2 - a.2
  let den := dx * dx + dy * dy
  if den = 0 then 0
  else max 0 (min 1 (((p.1 - a.1) * dx + (p.2 - a.2) * dy) / den))

/-- Point at parameter `t` on the segment from `a` to `b`. -/
def lerp (a b : Coord) (t : ℚ) : Coord :=
  (a.1 + t * (b.1 - a.1), a.2 + t * (b.2 - a.2))

/-- Consecutive vertex pairs (the segments) of a polyline. -/
def segPairs : List Coord → List (Coord × Coord)
  | a :: b :: rest => (a, b) :: segPairs (b :: rest)
  | _ => []

/-- `LineString.length`: total arc length of a polyline under the metric. -/
def lineLength (m : Metric) (geom : List Coord) : ℚ :=
  (segPairs geom).foldl (fun acc s => acc + m.segLen s.1 s.2) 0

/-- Squared distance from `p` to the segment `s` (distance to the nearest
point of the segment). -/
def sqDistToSeg (p : Coord) (s : Coord × Coord) : ℚ :=
  sqDist p (lerp s.1 s.2 (projParam s.1 s.2 p))

/-- Squared distance from `p` to a polyline: the minimum over its segments
(`0` for a degenerate polyline with fewer than two vertices). -/
def sqDistToPolyline (p : Coord) (geom : List Coord) : ℚ :=
  match segPairs geom with
  | [] => 0
  | s :: rest => rest.foldl (fun acc t => min acc (sqDistToSeg p t)) (sqDistToSeg p s)

/-- `LineString.project(p)`: arc-length offset along the polyline of the
point of the polyline nearest to `p`.  Walks the segments keeping the first
segment attaining the minimal squared distance, exactly as shapely keeps
the first nearest location. -/
def project (m : Metric) (geom : List Coord) (p : Coord) : ℚ :=
  let step := fun (st : ℚ × Option (ℚ × ℚ)) (s : Coord × Coord) =>
    let t := projParam s.1 s.2 p
    let d := sqDist p (lerp s.1 s.2 t)
    let off := st.1 + t * m.segLen s.1 s.2
    let best :=
      match st.2 with
      | none => some (d, off)
      | some (bd, boff) => if d < bd then some (d, off) else some (bd, boff)
    (st.1 + m.segLen s.1 s.2, best)
  match ((segPairs geom).foldl step (0, none)).2 with
  | some (_, off) => off
  | none => 0

/-- Helper for `interpolate`: walk the remaining vertices consuming arc
length `d` from the current vertex `a`. -/
def interpGo (m : Metric) (a : Coord) : List Coord → ℚ → Coord
  | [], _ => a
  | b :: rest, d =>
    let len := m.segLen a b
    if d ≤ len then (if len = 0 then b else lerp a b (d / len))
    else interpGo m b rest (d - len)

/-- `LineString.interpolate(d)`: the point at arc-length `d` from the start
of the polyline; distances below `0` clamp to the start and beyond the total
length clamp to the end (only in-range distances occur in the source). -/
def interpolate (m : Metric) (geom : List Coord) (d : ℚ) : Coord :=
  match geom with
  | [] => (0, 0)
  | a :: rest => if d ≤ 0 then a else interpGo m a rest d

/-- Result of `shapely.ops.substring`: a `LineString` or, when the two
offsets coincide, a `Point`. -/
inductive SubRes where
  | ls : List Coord → SubRes
  | pt : Coord → SubRes
deriving DecidableEq

/-- The polyline vertices paired with their cumulative arc-length offsets. -/
def vertsWithCum (m : Metric) : List Coord → ℚ → List (Coord × ℚ)
  | [], _ => []
  | [a], c => [(a, c)]
  | a :: b :: rest, c => (a, c) :: vertsWithCum m (b :: rest) (c + m.segLen a b)

/-- The vertices whose cumulative offset lies strictly between `s` and `e`. -/
def midVerts (s e : ℚ) : List (Coord × ℚ) → List Coord
  | [] => []
  | vc :: rest => if s < vc.2 ∧ vc.2 < e then vc.1 :: midVerts s e rest else midVerts s e rest

/-- Coordinates of the sub-line from offset `s` to offset `e` (`s < e`
assumed): the interpolated start, every vertex strictly between the two
offsets, and the interpolated end. -/
def subCoords (m : Metric) (geom : List Coord) (s e : ℚ) : List Coord :=
  interpolate m geom s :: midVerts s e (vertsWithCum m geom 0) ++ [interpolate m geom e]

/-- `shapely.ops.substring(geom, s, e)`: offsets clamp to `[0, length]`;
equal offsets give a `Point`; a start offset beyond the end offset gives the
reversed sub-line. -/
def substring (m : Metric) (geom : List Coord) (s e : ℚ) : SubRes :=
  let len := lineLength m geom
  let s' := max 0 (min len s)
  let e' := max 0 (min len e)
  if s' = e' then .pt (interpolate m geom s')
  else if s' < e' then .ls (subCoords m geom s' e')
  else .ls ((subCoords m geom e' s').reverse)

/-! ## Spatial graph (the projected `networkx.MultiDiGraph` collaborator) -/

/-- Node attributes: projected planar coordinates `x`, `y`. -/
structure NodeData where
  x : ℚ
  y : ℚ
deriving DecidableEq

/-- Edge attributes: optional explicit polyline `geometry` and the `length`
weight. -/
structure EdgeData where
  geometry : Option (List Coord)
  length : ℚ
deriving DecidableEq

/-- A projected directed multigraph: node attribute list and edge list
`(u, v, key, data)` in insertion order. -/
structure SpatialGraph where
  nodes : List (Node × NodeData)
  edges : List (Node × Node × ℕ × EdgeData)
deriving DecidableEq

/-- `graph.nodes[n]`, as an option (`KeyError` when absent). -/
def nodeData? (g : SpatialGraph) (n : Node) : Option NodeData :=
  (g.nodes.find? (fun e => e.1 == n)).map (·.2)

/-- `graph.get_edge_data(u, v, key)`: the attribute dict of that one edge,
`None` when absent. -/
def edgeData? (g : SpatialGraph) (u v : Node) (key : ℕ) : Option EdgeData :=
  (g.edges.find? (fun e => e.1 == u && e.2.1 == v && e.2.2.1 == key)).map (·.2.2.2)

/-- `graph.get_edge_data(u, v)`: the key-indexed dict of all parallel
`u → v` edges, `None` when there is none. -/
def edgeDataDict (g : SpatialGraph) (u v : Node) : Option (List (ℕ × EdgeData)) :=
  let l := (g.edges.filter (fun e => e.1 == u && e.2.1 == v)).map (fun e => (e.2.2.1, e.2.2.2))
  if l.isEmpty then none else some l

/-- Deduplication keeping first occurrences (a Python `dict`/adjacency view
yields each neighbour once, in insertion order). -/
def dedupFirst : List Node → List Node
  | [] => []
  | n :: rest => n :: (dedupFirst rest).filter (fun x => x ≠ n)

/-- `graph.successors(n)`: the distinct targets of the outgoing edges of
`n`, in insertion order. -/
def successors (g : SpatialGraph) (n : Node) : List Node :=
  dedupFirst ((g.edges.filter (fun e => e.1 == n)).map (fun e => e.2.1))

/-- The straight-segment geometry between the coordinates of two nodes
(used whenever an edge has no explicit `geometry`); `KeyError` when either
node is absent. -/
def straightGeom (g : SpatialGraph) (u v : Node) : Except PyError (List Coord) :=
  match nodeData? g u, nodeData? g v with
  | some a, some b => .ok [(a.x, a.y), (b.x, b.y)]
  | _, _ => .error .keyError

/-- The geometry used for an edge whose attribute dict is at hand:
`edge_data['geometry']` when present, else the straight segment between the
endpoint nodes. -/
def resolveEdgeGeom (g : SpatialGraph) (u v : Node) (ed : EdgeData) : Except PyError (List Coord) :=
  match ed.geometry with
  | some geo => .ok geo
  | none => straightGeom g u v

/-- The geometry an edge presents to `ox.nearest_edges` (explicit polyline,
else straight segment; a dangling edge contributes a degenerate polyline). -/
def edgeGeomForDist (g : SpatialGraph) (u v : Node) (ed : EdgeData) : List Coord :=
  match ed.geometry with
  | some geo => geo
  | none =>
    match nodeData? g u, nodeData? g v with
    | some a, some b => [(a.x, a.y), (b.x, b.y)]
    | _, _ => []

/-- `ox.nearest_edges(graph, x, y)`: the `(u, v, key)` of the edge whose
geometry is nearest to the point (first minimum in edge order); `None`
models the error raised on an edgeless graph. -/
def nearestEdges (g : SpatialGraph) (x y : ℚ) : Option (Node × Node × ℕ) :=
  let cand := g.edges.map
    (fun e => ((e.1, e.2.1, e.2.2.1), sqDistToPolyline (x, y) (edgeGeomForDist g e.1 e.2.1 e.2.2.2)))
  match cand with
  | [] => none
  | c :: rest => some (rest.foldl (fun b c' => if c'.2 < b.2 then c' else b) c).1

/-- Breadth-first search step: `bfsAux g dst fuel frontier` where the
frontier holds `(node, reversed path to it)` entries.  This is the embedding
of the external `networkx`/`osmnx` length-weighted shortest-path collaborator:
the engine's claims depend only on whether a route exists, and this search
returns a route exactly when the destination is reachable (given fuel at
least the number of frontier extensions, e.g. `nodes × edges + 1`). -/
def bfsAux (g : SpatialGraph) (dst : Node) : ℕ → List (Node × List Node) → List Node → Option (List Node)
  | 0, _, _ => none
  | _, [], _ => none
  | fuel + 1, (n, pathRev) :: front, seen =>
    if n = dst then some pathRev.reverse
    else
      let fresh := (successors g n).filter (fun x => decide (x ∉ seen))
      bfsAux g dst fuel (front ++ fresh.map (fun x => (x, x :: pathRev))) (seen ++ fresh)

/-- `ox.shortest_path(graph, src, dst, weight='length')` /
`nx.shortest_path`: a node sequence from `src` to `dst`, or `None`
(`NetworkXNoPath`) when no route exists. -/
def bfsShortestPath (g : SpatialGraph) (src dst : Node) : Option (List Node) :=
  bfsAux g dst (g.nodes.length * g.edges.length + g.nodes.length + 1) [(src, [src])] [src]

/-! ## Snapping and edge orientation (`PlayingField._snap_to_edge`,
`_orient_edge_to_node`, `_orient_edge_away_from_node`, `_get_farthest_node`;
the same bodies appear in `CloseLoopStrategy` and
`GraphGeometryFunctions`) -/

/-- `_snap_to_edge(point_proj)`: nearest edge, its geometry (explicit or
straight), and the point of that geometry at the arc-length offset of the
orthogonal projection of the query point. -/
def snapToEdge (m : Metric) (g : SpatialGraph) (p : Coord) :
    Except PyError (Coord × Node × Node × ℕ) :=
  match nearestEdges g p.1 p.2 with
  | none => .error .noNearestEdge
  | some (u, v, key) =>
    match edgeData? g u v key with
    | none => .error .typeError
    | some ed =>
      match resolveEdgeGeom g u v ed with
      | .error e => .error e
      | .ok geom => .ok (interpolate m geom (project m geom p), u, v, key)

/-- `_get_farthest_node(u, v, point)`: the endpoint of the edge farther from
the point (`u` on a strictly larger distance, else `v`). -/
def getFarthestNode (g : SpatialGraph) (u v : Node) (p : Coord) : Except PyError Node :=
  match nodeData? g u, nodeData? g v with
  | some a, some b => .ok (if sqDist p (a.x, a.y) > sqDist p (b.x, b.y) then u else v)
  | _, _ => .error .keyError

/-- The squared orientation tolerance: the source compares a distance
against `tol=1e-9`. -/
def orientTolSq : ℚ := 1 / 10 ^ 18

/-- `_orient_edge_to_node`: reorient the polyline so it starts at the given
node point (unchanged when neither endpoint is within tolerance). -/
def orientEdgeToNode (geom : List Coord) (np : Coord) : List Coord :=
  match geom.head?, geom.getLast? with
  | some h, some l =>
    if sqDist h np ≤ orientTolSq then geom
    else if sqDist l np ≤ orientTolSq then geom.reverse
    else geom
  | _, _ => geom

/-- `_orient_edge_away_from_node`: reorient the polyline so it ends pointing
away from the given node point. -/
def orientEdgeAwayFromNode (geom : List Coord) (np : Coord) : List Coord :=
  match geom.head?, geom.getLast? with
  | some h, _ =>
    if sqDist h np ≤ orientTolSq then geom.reverse
    else geom
  | _, _ => geom

/-! ## PlayingField (`src/models/playing_field.py`) -/

/-- The per-agent state of a `PlayingField` plus its (read-shared) graph;
the three Python dicts are association lists in insertion order. -/
structure PlayingField where
  graph : SpatialGraph
  startLocations : List (String × Location)
  lastKnownLocations : List (String × Location)
  trajectories : List (String × Trajectory)
deriving DecidableEq

/-- Python dict assignment `d[k] = v`: overwrite the existing entry, else
append a new one. -/
def setAssoc {α : Type} (l : List (String × α)) (k : String) (v : α) : List (String × α) :=
  match l with
  | [] => [(k, v)]
  | (k', v') :: rest => if k' == k then (k, v) :: rest else (k', v') :: setAssoc rest k v

/-- `_get_player_last_known_location(id)`, as the planar-pair view `(x, y)`
that the caller immediately takes of the returned `Location`/`Point`: the
last trajectory coordinate when the trajectory is non-empty, else the
registered start location; `none` when neither is available. -/
def getPlayerLastKnownLocationXY (f : PlayingField) (pid : String) : Option Coord :=
  match f.trajectories.lookup pid with
  | none => (f.startLocations.lookup pid).map (fun l => (l.x, l.y))
  | some t =>
    if t.isEmpty then (f.startLocations.lookup pid).map (fun l => (l.x, l.y))
    else t.lastKnownPoint

/-- `coords.extend(sub_coords)` with the source's boundary deduplication:
`if coords and sub_coords and coords[-1] == sub_coords[0]` the shared first
coordinate of the extension is skipped. -/
def extendDedup (coords sub : List Coord) : List Coord :=
  if coords ≠ [] ∧ sub ≠ [] ∧ coords.getLast? = sub.head? then coords ++ sub.tail
  else coords ++ sub

/-- `if not (coords and coords[-1] == pt): coords.append(pt)`. -/
def appendIfNew (coords : List Coord) (p : Coord) : List Coord :=
  if coords ≠ [] ∧ coords.getLast? = some p then coords else coords ++ [p]

/-- Same-edge stitching
(`GraphGeometryFunctions.create_linestring_from_proj_points_within_edge`,
inlined verbatim in `PlayingField.update_current_location`): the exact start
point, then — when the key-`0` edge has explicit geometry — the sub-line of
that geometry between the two points' arc-length offsets, then the exact end
point.  Still in projected coordinates (the source reprojects the assembled
`LineString` afterwards). -/
def createLinestringWithinEdgeProj (m : Metric) (g : SpatialGraph) (startP endP : Coord)
    (u v : Node) : Except PyError (List Coord) :=
  match edgeDataDict g u v with
  | none => .error .typeError
  | some dict =>
    match dict.lookup 0 with
    | none => .error .keyError
    | some ed =>
      let mid : List Coord :=
        match ed.geometry with
        | some eg =>
          (match substring m eg (project m eg startP) (project m eg endP) with
           | .ls cs => cs
           | .pt p => [p])
        | none => []
      .ok ((startP :: mid) ++ [endP])

/-- `list.index(value)`: index of the first occurrence. -/
def pyIndexOf : List Node → Node → ℕ
  | [], _ => 0
  | a :: rest, x => if a = x then 0 else pyIndexOf rest x + 1

/-- The body of the cross-edge assembly loop `for node in path[1:-1]`,
walking the remaining slice and growing `coords`.  `path[path.index(node) - 1]`
is the predecessor by first occurrence (Python index `-1` wraps to the last
element). -/
def crossEdgeLoop (m : Metric) (g : SpatialGraph) (path : List Node)
    (lastSnapped newSnapped : Coord) :
    List Coord → List Node → Except PyError (List Coord)
  | coords, [] => .ok coords
  | coords, node :: rest =>
    let i := pyIndexOf path node
    let pred := if i = 0 then (path.getLast?).getD 0 else path.getD (i - 1) 0
    match edgeDataDict g pred node with
    | none => .error .typeError
    | some dict =>
      match dict.lookup 0 with
      | none => .error .keyError
      | some ed =>
        match ed.geometry with
        | some eg =>
          match path.getLast? with
          | none => .error .keyError
          | some lastNode =>
            match nodeData? g lastNode with
            | none => .error .keyError
            | some nd =>
              let nodePoint : Coord := (nd.x, nd.y)
              if node = path.getD 1 0 then
                let eg' := orientEdgeToNode eg nodePoint
                let startDist := project m eg' lastSnapped
                let coords' :=
                  match substring m eg' startDist (lineLength m eg') with
                  | .ls sub => extendDedup coords sub
                  | .pt p => appendIfNew coords p
                crossEdgeLoop m g path lastSnapped newSnapped coords' rest
              else if node = path.getD (path.length - 2) 0 then
                let eg' := orientEdgeAwayFromNode eg nodePoint
                let endDist := project m eg' newSnapped
                let coords' :=
                  match substring m eg' 0 endDist with
                  | .ls sub => extendDedup coords sub
                  | .pt p => appendIfNew coords p
                crossEdgeLoop m g path lastSnapped newSnapped coords' rest
              else
                crossEdgeLoop m g path lastSnapped newSnapped (coords ++ eg) rest
        | none =>
          match nodeData? g node with
          | none => .error .keyError
          | some nd =>
            crossEdgeLoop m g path lastSnapped newSnapped (coords ++ [(nd.x, nd.y)]) rest

/-- Cross-edge stitching (`update_current_location`, different-edges branch):
far endpoints of both partial edges, shortest-path search between them
(`sp`, the injected `ox.shortest_path` collaborator, `none` on no route —
the source then subscripts `None`, a `TypeError`), assembly over the
interior nodes, and the guarded append of the exact end point. -/
def crossEdgePath (m : Metric) (sp : SpatialGraph → Node → Node → Option (List Node))
    (g : SpatialGraph) (lastSnapped : Coord) (lu lv : Node) (newSnapped : Coord) (nu nv : Node) :
    Except PyError (List Coord) :=
  match getFarthestNode g lu lv newSnapped with
  | .error e => .error e
  | .ok startNode =>
    match getFarthestNode g nu nv lastSnapped with
    | .error e => .error e
    | .ok endNode =>
      match sp g startNode endNode with
      | none => .error .typeError
      | some path =>
        match crossEdgeLoop m g path lastSnapped newSnapped [lastSnapped] ((path.drop 1).dropLast) with
        | .error e => .error e
        | .ok coords => .ok (appendIfNew coords newSnapped)

/-- The path-synthesis part of `update_current_location`: recompute the
previous location from persisted state, snap both points, and stitch the
same-edge or cross-edge polyline; returns the reprojected geographic
polyline to merge plus the snapped new projected point. -/
def computeNewPathGeo (m : Metric) (sp : SpatialGraph → Node → Node → Option (List Node))
    (f : PlayingField) (pid : String) (newLoc : Location) :
    Except PyError (List Coord × Coord) :=
  match getPlayerLastKnownLocationXY f pid with
  | none => .error .attrError
  | some lastXY =>
    match snapToEdge m f.graph (m.toProj lastXY) with
    | .error e => .error e
    | .ok (lastSnapped, lu, lv, _) =>
      match snapToEdge m f.graph (m.toProj (newLoc.x, newLoc.y)) with
      | .error e => .error e
      | .ok (newSnapped, nu, nv, _) =>
        if (lu, lv) = (nu, nv) then
          match createLinestringWithinEdgeProj m f.graph lastSnapped newSnapped lu lv with
          | .error e => .error e
          | .ok coords => .ok (coords.map m.toGeo, newSnapped)
        else
          match crossEdgePath m sp f.graph lastSnapped lu lv newSnapped nu nv with
          | .error e => .error e
          | .ok coords => .ok (coords.map m.toGeo, newSnapped)

/-- `update_current_location(player_id, new_location)` up to the raising of
an exception: no-op when the id has no trajectory entry, otherwise merge the
stitched geographic polyline into the agent's trajectory and overwrite the
last known location with the snapped-back new location (constructed at time
`now`). -/
def updateGo (m : Metric) (sp : SpatialGraph → Node → Node → Option (List Node))
    (f : PlayingField) (pid : String) (newLoc : Location) (now : ℚ) :
    Except PyError PlayingField :=
  match f.trajectories.lookup pid with
  | none => .ok f
  | some traj =>
    match computeNewPathGeo m sp f pid newLoc with
    | .error e => .error e
    | .ok (pathGeo, newSnapped) =>
      let snappedGeo := m.toGeo newSnapped
      .ok { f with
        trajectories := setAssoc f.trajectories pid (traj.update pathGeo),
        lastKnownLocations :=
          setAssoc f.lastKnownLocations pid ⟨snappedGeo.2, snappedGeo.1, now⟩ }

/-- `PlayingField.update_current_location`, with the Python exception made
explicit: the first component is the raised exception (if any) and the
second the per-field state after the call — every raise in the source occurs
before any state mutation, so a raising call leaves the state unchanged. -/
def updateCurrentLocation (m : Metric) (sp : SpatialGraph → Node → Node → Option (List Node))
    (f : PlayingField) (pid : String) (newLoc : Location) (now : ℚ) :
    Option PyError × PlayingField :=
  match updateGo m sp f pid newLoc now with
  | .ok f' => (none, f')
  | .error e => (some e, f)

/-! ## Polyline intersection (shapely `intersects`, used by the strategy) -/

/-- Twice the signed area of the triangle `a b c` (orientation test). -/
def orientArea (a b c : Coord) : ℚ :=
  (b.1 - a.1) * (c.2 - a.2) - (b.2 - a.2) * (c.1 - a.1)

/-- For `c` collinear with the segment `a b`: does `c` lie within its
bounding box (hence on the segment)? -/
def onSegBox (a b c : Coord) : Bool :=
  decide (min a.1 b.1 ≤ c.1) && decide (c.1 ≤ max a.1 b.1) &&
    decide (min a.2 b.2 ≤ c.2) && decide (c.2 ≤ max a.2 b.2)

/-- Whether two closed segments share a point (proper crossing or a
collinear touch). -/
def segIntersects (s1 s2 : Coord × Coord) : Bool :=
  let o1 := orientArea s1.1 s1.2 s2.1
  let o2 := orientArea s1.1 s1.2 s2.2
  let o3 := orientArea s2.1 s2.2 s1.1
  let o4 := orientArea s2.1 s2.2 s1.2
  (decide (o1 * o2 < 0) && decide (o3 * o4 < 0)) ||
    (decide (o1 = 0) && onSegBox s1.1 s1.2 s2.1) ||
    (decide (o2 = 0) && onSegBox s1.1 s1.2 s2.2) ||
    (decide (o3 = 0) && onSegBox s2.1 s2.2 s1.1) ||
    (decide (o4 = 0) && onSegBox s2.1 s2.2 s1.2)

/-- `LineString.intersects(LineString)`: some segment of the first polyline
meets some segment of the second. -/
def polyIntersects (g1 g2 : List Coord) : Bool :=
  (segPairs g1).any (fun s1 => (segPairs g2).any (fun s2 => segIntersects s1 s2))

/-! ## CloseLoopStrategy (`src/models/strategy.py`) -/

/-- The per-strategy state: the configured minimum loop length and the
visited-node set (a Python `set`, modelled as a duplicate-free list). -/
structure CloseLoopStrategy where
  minLoopLength : ℚ
  visitedNodes : List Node
deriving DecidableEq

/-- `set.add`. -/
def insertNode (visited : List Node) (n : Node) : List Node :=
  if n ∈ visited then visited else visited ++ [n]

/-- `_get_closest_node(graph, u, v, point)`: `v` when the point is strictly
farther from `u`, else `u`. -/
def getClosestNode (g : SpatialGraph) (u v : Node) (p : Coord) : Except PyError Node :=
  match nodeData? g u, nodeData? g v with
  | some a, some b => .ok (if sqDist p (a.x, a.y) > sqDist p (b.x, b.y) then v else u)
  | _, _ => .error .keyError

/-- `_get_dist_to_closest_node_along_the_edge`: arc-length distance along
the current edge from the snapped point to the chosen endpoint (the guard
`if edge_data and 'geometry' in edge_data` falls back to the straight
segment both when the edge is missing and when it has no geometry). -/
def distToClosestNodeAlongEdge (m : Metric) (g : SpatialGraph) (snapped : Coord)
    (u v : Node) (key : ℕ) (closest : Node) : Except PyError ℚ :=
  let geomE : Except PyError (List Coord) :=
    match edgeData? g u v key with
    | some ed => resolveEdgeGeom g u v ed
    | none => straightGeom g u v
  match geomE with
  | .error e => .error e
  | .ok geom =>
    let dAlong := project m geom snapped
    .ok (if closest = u then dAlong else lineLength m geom - dAlong)

/-- The mid-edge branch of `next_move` (budget smaller than the distance to
the closest node): move along the current edge toward the closest node by
exactly the budget, clamping to the edge ends; here
`if 'geometry' in edge_data` has no `None` guard, so a missing edge raises.
Returns the projected target point. -/
def midEdgeMove (m : Metric) (g : SpatialGraph) (u v : Node) (key : ℕ) (closest : Node)
    (distC maxDist : ℚ) : Except PyError Coord :=
  match edgeData? g u v key with
  | none => .error .typeError
  | some ed =>
    match resolveEdgeGeom g u v ed with
    | .error e => .error e
    | .ok geom =>
      let target :=
        if closest = u then
          let t := distC - maxDist
          if t < 0 then 0 else t
        else
          let t := (lineLength m geom - distC) + maxDist
          if t > lineLength m geom then lineLength m geom else t
      .ok (interpolate m geom target)

/-- Sum of planar distances between the reprojections of consecutive
trajectory coordinates (the loop at `strategy.py:80-83`). -/
def pairSum (m : Metric) : List Coord → ℚ
  | a :: b :: rest => m.segLen (m.toProj a) (m.toProj b) + pairSum m (b :: rest)
  | _ => 0

/-- The accumulated `trajectory_length` before exploring: zero for a missing
or empty trajectory; a one-coordinate geometry makes the source iterate over
the integer `0`, a `TypeError`. -/
def trajectoryLength (m : Metric) (trajectory : Option Trajectory) : Except PyError ℚ :=
  match trajectory with
  | some t =>
    match t.geometry with
    | some cs =>
      if cs.isEmpty then .ok 0
      else if cs.length ≤ 1 then .error .typeError
      else .ok (pairSum m cs)
    | none => .ok 0
  | none => .ok 0

/-- The reprojected trajectory geometry, when the trajectory is present and
non-empty (the repeated guard `if trajectory and not trajectory.is_empty`). -/
def trajectoryProj (m : Metric) (trajectory : Option Trajectory) : Option (List Coord) :=
  match trajectory with
  | some t =>
    match t.geometry with
    | some cs => if cs.isEmpty then none else some (cs.map m.toProj)
    | none => none
  | none => none

/-- The neighbour-selection loop of `next_move`: the first successor whose
connecting edge does not intersect the trajectory and which is not yet
visited.  `'geometry' in edge_data` tests the key-indexed dict (its keys are
integers), so the straight segment between the node coordinates is always
used. -/
def findNextNode (g : SpatialGraph) (trajProj : Option (List Coord)) (visited : List Node)
    (closest : Node) : List Node → Except PyError (Option Node)
  | [] => .ok none
  | nb :: rest =>
    match edgeDataDict g closest nb with
    | none => findNextNode g trajProj visited closest rest
    | some _ =>
      match nodeData? g closest, nodeData? g nb with
      | some a, some b =>
        let eg : List Coord := [(a.x, a.y), (b.x, b.y)]
        let hitsTrajectory :=
          match trajProj with
          | some tg => polyIntersects tg eg
          | none => false
        if hitsTrajectory then findNextNode g trajProj visited closest rest
        else if nb ∈ visited then findNextNode g trajProj visited closest rest
        else .ok (some nb)
      | _, _ => .error .keyError

/-- The exploration `while` loop of `next_move` (advance while budget
remains and the loop-length threshold is not reached), on explicit fuel:
every full advance visits a fresh node and a partial advance zeroes the
budget, so fuel `nodes + 1` is never exhausted.  Returns the current
location, node, visited set, remaining budget and accumulated loop
length. -/
def exploreLoop (m : Metric) (g : SpatialGraph) (trajProj : Option (List Coord)) (minLoop : ℚ)
    (now : ℚ) : ℕ → Node → List Node → ℚ → ℚ → Location →
    Except PyError (Location × Node × List Node × ℚ × ℚ)
  | 0, closest, visited, remaining, trajLen, cur => .ok (cur, closest, visited, remaining, trajLen)
  | fuel + 1, closest, visited, remaining, trajLen, cur =>
    if remaining > 0 ∧ trajLen < minLoop then
      let neighbors := successors g closest
      if neighbors.isEmpty then .ok (cur, closest, visited, remaining, trajLen)
      else
        match findNextNode g trajProj visited closest neighbors with
        | .error e => .error e
        | .ok none => .ok (cur, closest, visited, remaining, trajLen)
        | .ok (some nxt) =>
          match edgeDataDict g closest nxt with
          | none => .error .typeError
          | some _ =>
            match nodeData? g closest, nodeData? g nxt with
            | some a, some b =>
              let eg : List Coord := [(a.x, a.y), (b.x, b.y)]
              let len := lineLength m eg
              if len ≤ remaining then
                let geoPt := m.toGeo (b.x, b.y)
                exploreLoop m g trajProj minLoop now fuel nxt (insertNode visited nxt)
                  (remaining - len) (trajLen + len) ⟨geoPt.2, geoPt.1, now⟩
              else
                let eg' := orientEdgeToNode eg (b.x, b.y)
                let geoPt := m.toGeo (interpolate m eg' remaining)
                exploreLoop m g trajProj minLoop now fuel closest visited 0 trajLen
                  ⟨geoPt.2, geoPt.1, now⟩
            | _, _ => .error .keyError
    else .ok (cur, closest, visited, remaining, trajLen)

/-- The walk along the return path in the loop-closing phase: fully consume
edges that fit the remaining budget, and stop at the first edge that does
not, interpolating partway (again with the always-straight edge geometry of
the key-indexed dict test). -/
def closeLoopWalk (m : Metric) (g : SpatialGraph) (now : ℚ) :
    List Node → ℚ → Location → Except PyError Location
  | [], _, cur => .ok cur
  | [_], _, cur => .ok cur
  | a :: b :: rest, remaining, cur =>
    match edgeDataDict g a b with
    | none => .error .typeError
    | some _ =>
      match nodeData? g a, nodeData? g b with
      | some na, some nb =>
        let eg : List Coord := [(na.x, na.y), (nb.x, nb.y)]
        let len := lineLength m eg
        if len ≤ remaining then closeLoopWalk m g now (b :: rest) (remaining - len) cur
        else
          let gp := m.toGeo (interpolate m eg remaining)
          .ok ⟨gp.2, gp.1, now⟩
      | _, _ => .error .keyError

/-- The loop-closing phase of `next_move`: pick the return target near the
trajectory start (preferring the endpoint that is visited or whose
10-metre vicinity meets the trajectory), search a shortest path back, and
walk it with the remaining budget; a `NetworkXNoPath` is swallowed and the
position reached by exploration is kept. -/
def closeLoopPhase (m : Metric) (sp : SpatialGraph → Node → Node → Option (List Node))
    (g : SpatialGraph) (trajectory : Option Trajectory) (trajProj : Option (List Coord))
    (snapped : Coord) (visited : List Node) (closest : Node) (remaining : ℚ) (cur : Location)
    (now : ℚ) : Except PyError Location :=
  let startXY : Option Coord :=
    match trajectory with
    | some t => if t.isEmpty then none else t.startPoint
    | none => none
  let startProj :=
    match startXY with
    | none => snapped
    | some c => m.toProj c
  match nearestEdges g startProj.1 startProj.2 with
  | none => .error .noNearestEdge
  | some (u, v, _) =>
    let endNodeE : Except PyError Node :=
      match trajProj with
      | some tg =>
        match nodeData? g u with
        | none => .error .keyError
        | some nu => .ok (if sqDistToPolyline (nu.x, nu.y) tg ≤ 100 ∨ u ∈ visited then v else u)
      | none => .ok (if u ∈ visited then v else u)
    match endNodeE with
    | .error e => .error e
    | .ok endN =>
      match sp g closest endN with
      | none => .ok cur
      | some path => closeLoopWalk m g now path remaining cur

/-- The at-node branch of `next_move` (the budget reaches the closest node):
move there, mark it visited, explore outward, and — once the loop-length
threshold is reached — try to close the loop.  Every exit carries a
`Location`. -/
def atNodeMove (m : Metric) (sp : SpatialGraph → Node → Node → Option (List Node))
    (g : SpatialGraph) (strat : CloseLoopStrategy) (trajectory : Option Trajectory)
    (snapped : Coord) (closest : Node) (distC maxDist now : ℚ) :
    Except PyError (Location × CloseLoopStrategy) :=
  match nodeData? g closest with
  | none => .error .keyError
  | some nd =>
    let visited1 := insertNode strat.visitedNodes closest
    let geoPt := m.toGeo (nd.x, nd.y)
    let loc0 : Location := ⟨geoPt.2, geoPt.1, now⟩
    let remaining0 := maxDist - distC
    match trajectoryLength m trajectory with
    | .error e => .error e
    | .ok tl0 =>
      let trajProj := trajectoryProj m trajectory
      match exploreLoop m g trajProj strat.minLoopLength now (g.nodes.length + 1) closest
          visited1 remaining0 tl0 loc0 with
      | .error e => .error e
      | .ok (loc1, closest1, visited2, remaining1, trajLen1) =>
        if trajLen1 ≥ strat.minLoopLength then
          match closeLoopPhase m sp g trajectory trajProj snapped visited2 closest1 remaining1
              loc1 now with
          | .error e => .error e
          | .ok loc2 => .ok (loc2, { strat with visitedNodes := visited2 })
        else .ok (loc1, { strat with visitedNodes := visited2 })

/-- The body of `CloseLoopStrategy.next_move` up to the final timestamp
assignment: the `Option Location` mirrors the source's
`new_location: Optional[Location] = None`, which both branches overwrite. -/
def nextMoveCore (m : Metric) (sp : SpatialGraph → Node → Node → Option (List Node))
    (strat : CloseLoopStrategy) (lastLoc : Location) (f : PlayingField) (maxSpeed : ℚ)
    (pid : String) (now : ℚ) : Except PyError (Option Location × CloseLoopStrategy) :=
  let elapsed := now - lastLoc.timestamp
  let maxDist := max 0 (maxSpeed * elapsed)
  match snapToEdge m f.graph (m.toProj (lastLoc.x, lastLoc.y)) with
  | .error e => .error e
  | .ok (snapped, u, v, key) =>
    let trajectory := f.trajectories.lookup pid
    match getClosestNode f.graph u v snapped with
    | .error e => .error e
    | .ok closest =>
      match distToClosestNodeAlongEdge m f.graph snapped u v key closest with
      | .error e => .error e
      | .ok distC =>
        if distC > maxDist then
          match midEdgeMove m f.graph u v key closest distC maxDist with
          | .error e => .error e
          | .ok pt =>
            let geoPt := m.toGeo pt
            .ok (some ⟨geoPt.2, geoPt.1, now⟩, strat)
        else
          match atNodeMove m sp f.graph strat trajectory snapped closest distC maxDist now with
          | .error e => .error e
          | .ok (loc, strat') => .ok (some loc, strat')

/-- The observable outcome of a `next_move` call: an exception raised in the
body, the `AttributeError` of stamping `new_location.timestamp` on `None`,
or a returned `Location` together with the strategy state. -/
inductive NextMoveResult where
  | raised : PyError → NextMoveResult
  | noneTimestampCrash : NextMoveResult
  | moved : Location → CloseLoopStrategy → NextMoveResult
deriving DecidableEq

/-- `CloseLoopStrategy.next_move`: run the body, then
`new_location.timestamp = now; return new_location`.  The playing field is
threaded through unchanged — the source only reads it. -/
def nextMove (m : Metric) (sp : SpatialGraph → Node → Node → Option (List Node))
    (strat : CloseLoopStrategy) (lastLoc : Location) (f : PlayingField) (maxSpeed : ℚ)
    (pid : String) (now : ℚ) : NextMoveResult × PlayingField :=
  match nextMoveCore m sp strat lastLoc f maxSpeed pid now with
  | .error e => (.raised e, f)
  | .ok (none, _) => (.noneTimestampCrash, f)
  | .ok (some l, s) => (.moved { l with timestamp := now } s, f)

/-- Whether a `next_move` call ended in the `None`-timestamp crash. -/
def isNoneTimestampCrash : NextMoveResult × PlayingField → Bool
  | (.noneTimestampCrash, _) => true
  | _ => false

/-! ## Concrete instances used by the witnesses -/

/-- A concrete metric for witnesses: taxicab segment length and identity
reprojections (every theorem above a metric is universally quantified, so
any concrete instance exercises it). -/
def taxicab : Metric :=
  { segLen := fun a b => |a.1 - b.1| + |a.2 - b.2|, toProj := id, toGeo := id }

/-! # Claims -/

/-- Claim C2: for every non-empty trajectory geometry and non-empty
sub-path, `Trajectory.update` appends the sub-path with its first
coordinate dropped once when that coordinate equals the trajectory's last
coordinate, and appends the sub-path unchanged otherwise. -/
theorem trajectory_update_merge (coords sub : List Coord)
    (hc : coords ≠ []) (hs : sub ≠ []) :
    (coords.getLast? = sub.head? →
      (Trajectory.update ⟨some coords⟩ sub).geometry = some (coords ++ sub.tail)) ∧
    (coords.getLast? ≠ sub.head? →
      (Trajectory.update ⟨some coords⟩ sub).geometry = some (coords ++ sub)) := by
  constructor <;> intro h <;> simp [Trajectory.update, h]

/-- Witness for C2 at a concrete trajectory, in both branches. -/
theorem trajectory_update_merge_w :
    (Trajectory.update ⟨some [((0:ℚ), (1:ℚ)), (1, 2)]⟩ [((1:ℚ), (2:ℚ)), (2, 3)]).geometry
        = some ([((0:ℚ), (1:ℚ)), (1, 2)] ++ [((1:ℚ), (2:ℚ)), (2, 3)].tail) ∧
      (Trajectory.update ⟨some [((0:ℚ), (1:ℚ)), (1, 2)]⟩ [((5:ℚ), (6:ℚ)), (2, 3)]).geometry
        = some ([((0:ℚ), (1:ℚ)), (1, 2)] ++ [((5:ℚ), (6:ℚ)), (2, 3)]) :=
  ⟨(trajectory_update_merge _ _ (by simp) (by simp)).1 (by norm_num),
   (trajectory_update_merge _ _ (by simp) (by simp)).2 (by norm_num)⟩

/-- Claim C3: merging `[a, b]` then `[b, c]` into any trajectory (whose
geometry, if present, is non-empty) equals merging the pre-concatenated
`[a, b, c]`; and merging a sub-path whose first coordinate differs from the
trajectory's last coordinate is strict concatenation. -/
theorem trajectory_merge_laws :
    (∀ (t : Trajectory) (a b c : Coord),
      (t.geometry = none ∨ ∃ cs, t.geometry = some cs ∧ cs ≠ []) →
      (Trajectory.update (Trajectory.update t [a, b]) [b, c]).geometry
        = (Trajectory.update t [a, b, c]).geometry) ∧
    (∀ (cs sub : List Coord), cs ≠ [] → sub ≠ [] → cs.getLast? ≠ sub.head? →
      (Trajectory.update ⟨some cs⟩ sub).geometry = some (cs ++ sub)) := by
  constructor
  · rintro ⟨g⟩ a b c (rfl | ⟨cs, rfl, hcs⟩)
    · simp [Trajectory.update]
    · rcases hq : cs.getLast? with _ | l
      · exact absurd (List.getLast?_eq_none_iff.mp hq) hcs
      · by_cases hla : l = a
        · subst hla
          simp [Trajectory.update, hq, List.getLast?_append]
        · simp [Trajectory.update, hq, hla, List.getLast?_append]
  · intro cs sub hc hs h
    simp [Trajectory.update, h]

/-- Witness for C3 at a concrete trajectory and sub-paths. -/
theorem trajectory_merge_laws_w :
    (Trajectory.update (Trajectory.update ⟨some [((0:ℚ), (1:ℚ))]⟩ [(1, 2), (2, 3)])
        [((2:ℚ), (3:ℚ)), (3, 4)]).geometry
      = (Trajectory.update ⟨some [((0:ℚ), (1:ℚ))]⟩ [(1, 2), (2, 3), (3, 4)]).geometry ∧
    (Trajectory.update ⟨some [((0:ℚ), (1:ℚ))]⟩ [((4:ℚ), (5:ℚ)), (5, 6)]).geometry
      = some ([((0:ℚ), (1:ℚ))] ++ [((4:ℚ), (5:ℚ)), (5, 6)]) :=
  ⟨trajectory_merge_laws.1 _ _ _ _ (Or.inr ⟨_, rfl, by simp⟩),
   trajectory_merge_laws.2 _ _ (by simp) (by simp) (by norm_num)⟩

/-- Claim C6: `Trajectory.update` only ever appends (the previous coordinate
sequence is a prefix of the new one), and `start_point`/`last_known_point`
are exactly the first/last coordinate, `None` without geometry. -/
theorem trajectory_append_only (cs sub : List Coord) (hc : cs ≠ []) (hs : sub ≠ []) :
    (∃ tl, (Trajectory.update ⟨some cs⟩ sub).geometry = some (cs ++ tl)) ∧
    (Trajectory.update ⟨none⟩ sub).geometry = some sub ∧
    Trajectory.startPoint ⟨none⟩ = none ∧
    Trajectory.lastKnownPoint ⟨none⟩ = none ∧
    Trajectory.startPoint ⟨some cs⟩ = cs.head? ∧
    Trajectory.lastKnownPoint ⟨some cs⟩ = cs.getLast? := by
  refine ⟨?_, rfl, rfl, rfl, rfl, rfl⟩
  unfold Trajectory.update
  by_cases h : cs.getLast? = sub.head?
  · exact ⟨sub.tail, by simp [h]⟩
  · exact ⟨sub, by simp [h]⟩

/-- Witness for C6 at a concrete trajectory. -/
theorem trajectory_append_only_w :
    (∃ tl, (Trajectory.update ⟨some [((0:ℚ), (0:ℚ)), (1, 0)]⟩ [((1:ℚ), (0:ℚ)), (2, 0)]).geometry
        = some ([((0:ℚ), (0:ℚ)), (1, 0)] ++ tl)) ∧
      (Trajectory.update ⟨none⟩ [((1:ℚ), (0:ℚ)), (2, 0)]).geometry
        = some [((1:ℚ), (0:ℚ)), (2, 0)] ∧
      Trajectory.startPoint ⟨none⟩ = none ∧
      Trajectory.lastKnownPoint ⟨none⟩ = none ∧
      Trajectory.startPoint ⟨some [((0:ℚ), (0:ℚ)), (1, 0)]⟩
        = ([((0:ℚ), (0:ℚ)), (1, 0)] : List Coord).head? ∧
      Trajectory.lastKnownPoint ⟨some [((0:ℚ), (0:ℚ)), (1, 0)]⟩
        = ([((0:ℚ), (0:ℚ)), (1, 0)] : List Coord).getLast? :=
  trajectory_append_only _ _ (by simp) (by simp)

/-- Claim C8: `Location` equality is exactly coordinate-pair equality,
independent of timestamps, and equal locations hash alike for any tuple
hash. -/
theorem location_eq_and_hash (a b : Location) :
    (locEqb a b = true ↔ a.y = b.y ∧ a.x = b.x) ∧
    (∀ t t' : ℚ,
      locEqb { a with timestamp := t } { b with timestamp := t' } = locEqb a b) ∧
    (∀ hashPair : ℚ × ℚ → ℤ, locEqb a b = true → locHash hashPair a = locHash hashPair b) := by
  refine ⟨by simp [locEqb], fun t t' => by simp [locEqb], fun hp h => ?_⟩
  obtain ⟨h1, h2⟩ : a.y = b.y ∧ a.x = b.x := by simpa [locEqb] using h
  simp [locHash, h1, h2]

/-- Witness for C8: two locations equal in coordinates but not timestamps
hash alike. -/
theorem location_eq_and_hash_w :
    locHash (fun p => p.1.num + p.2.num) ⟨1, 2, 5⟩ = locHash (fun p => p.1.num + p.2.num) ⟨1, 2, 7⟩ :=
  (location_eq_and_hash ⟨1, 2, 5⟩ ⟨1, 2, 7⟩).2.2 _ (by norm_num [locEqb])

/-- Claim C7: updating an unregistered agent id is a no-op — no exception,
state returned unchanged. -/
theorem update_unknown_agent_noop (m : Metric)
    (sp : SpatialGraph → Node → Node → Option (List Node)) (f : PlayingField) (pid : String)
    (newLoc : Location) (now : ℚ) (h : f.trajectories.lookup pid = none) :
    updateCurrentLocation m sp f pid newLoc now = (none, f) := by
  simp [updateCurrentLocation, updateGo, h]

/-- Witness for C7 on a concrete field without registered agents. -/
theorem update_unknown_agent_noop_w :
    updateCurrentLocation taxicab bfsShortestPath ⟨⟨[], []⟩, [], [], []⟩ "p" ⟨0, 3, 0⟩ 0
      = (none, ⟨⟨[], []⟩, [], [], []⟩) :=
  update_unknown_agent_noop _ _ _ _ _ _ (by simp [List.lookup])

/-- Helper for C10: the body of `next_move` never completes with the
`new_location` still `None` — both branches assign a `Location`. -/
theorem nextMoveCore_ok_isSome (m : Metric)
    (sp : SpatialGraph → Node → Node → Option (List Node)) (strat : CloseLoopStrategy)
    (lastLoc : Location) (f : PlayingField) (maxSpeed : ℚ) (pid : String) (now : ℚ)
    (o : Option Location) (s : CloseLoopStrategy)
    (h : nextMoveCore m sp strat lastLoc f maxSpeed pid now = .ok (o, s)) : o.isSome := by
  unfold nextMoveCore at h
  dsimp only at h
  repeat' split at h
  all_goals (cases h <;> rfl)

/-- Claim C10: a `next_move` call never reaches the final
`new_location.timestamp = now` with `new_location` equal to `None`; in
particular a normally-returning call always returns a `Location`, despite
the `Optional` annotation. -/
theorem next_move_never_returns_none (m : Metric)
    (sp : SpatialGraph → Node → Node → Option (List Node)) (strat : CloseLoopStrategy)
    (lastLoc : Location) (f : PlayingField) (maxSpeed : ℚ) (pid : String) (now : ℚ) :
    isNoneTimestampCrash (nextMove m sp strat lastLoc f maxSpeed pid now) = false := by
  unfold nextMove
  cases h : nextMoveCore m sp strat lastLoc f maxSpeed pid now with
  | error e => simp [isNoneTimestampCrash]
  | ok p =>
    obtain ⟨o, s⟩ := p
    have hs := nextMoveCore_ok_isSome m sp strat lastLoc f maxSpeed pid now o s h
    cases o with
    | none => simp at hs
    | some l => simp [isNoneTimestampCrash]

/-- Claim C5: whatever the two arc-length offsets (in particular whichever
snapped point lies closer to the edge's own start), the same-edge stitched
polyline starts exactly at the first snapped point and ends exactly at the
second. -/
theorem same_edge_stitch_endpoints (m : Metric) (g : SpatialGraph) (s e : Coord)
    (u v : Node) (cs : List Coord)
    (h : createLinestringWithinEdgeProj m g s e u v = .ok cs) :
    cs.head? = some s ∧ cs.getLast? = some e := by
  unfold createLinestringWithinEdgeProj at h
  dsimp only at h
  repeat' split at h
  all_goals cases h
  all_goals exact ⟨rfl, by rw [List.getLast?_append]; simp⟩

/-- A two-node graph with a single explicit-geometry edge, for witnesses. -/
def gEdge : SpatialGraph :=
  { nodes := [(0, ⟨0, 0⟩), (1, ⟨10, 0⟩)],
    edges := [(0, 1, 0, ⟨some [((0:ℚ), (0:ℚ)), (10, 0)], 10⟩)] }

/-- Witness for C5: the second snapped point lies closer to the edge start
than the first (offsets 7 and 2), and the polyline still runs from the
first to the second. -/
theorem same_edge_stitch_endpoints_w :
    ([((7:ℚ), (0:ℚ)), (7, 0), (2, 0), (2, 0)] : List Coord).head? = some ((7:ℚ), (0:ℚ)) ∧
      ([((7:ℚ), (0:ℚ)), (7, 0), (2, 0), (2, 0)] : List Coord).getLast? = some ((2:ℚ), (0:ℚ)) :=
  same_edge_stitch_endpoints taxicab gEdge (7, 0) (2, 0) 0 1 _
    (by norm_num [createLinestringWithinEdgeProj, edgeDataDict, gEdge, taxicab, substring,
      subCoords, midVerts, vertsWithCum, interpolate, interpGo, project, segPairs, projParam,
      lerp, sqDist, lineLength, List.lookup, List.filter, List.foldl, List.isEmpty])

/-- The arc-length offset the claim asserts for the mid-edge branch: exactly
`budget` away from the snapped point's own offset, toward the nearer
endpoint (`u` lies at offset `0`, so toward `u` means subtracting). -/
def claimedMidEdgeOffset (m : Metric) (geom : List Coord) (snapped : Coord) (closest u : Node)
    (budget : ℚ) : ℚ :=
  if closest = u then project m geom snapped - budget else project m geom snapped + budget

/-- Claim C4: `next_move` computes its movement budget as
`max 0 (maxSpeed * elapsed)` and, whenever that budget is smaller than the
arc-length distance `distC` from the snapped point to the nearer endpoint of
its edge, returns the point of the same edge whose arc-length offset is
exactly the budget away from the snapped point's offset, shifted toward that
nearer endpoint — the strategy state (visited nodes) is untouched, i.e. no
node transition occurs. -/
theorem mid_edge_move_exact_budget (m : Metric)
    (sp : SpatialGraph → Node → Node → Option (List Node)) (strat : CloseLoopStrategy)
    (lastLoc : Location) (f : PlayingField) (maxSpeed : ℚ) (pid : String) (now : ℚ)
    (snapped : Coord) (u v : Node) (key : ℕ) (closest : Node) (distC : ℚ) (ed : EdgeData)
    (geom : List Coord)
    (hsnap : snapToEdge m f.graph (m.toProj (lastLoc.x, lastLoc.y)) = .ok (snapped, u, v, key))
    (hclosest : getClosestNode f.graph u v snapped = .ok closest)
    (hdist : distToClosestNodeAlongEdge m f.graph snapped u v key closest = .ok distC)
    (hed : edgeData? f.graph u v key = some ed)
    (hgeom : resolveEdgeGeom f.graph u v ed = .ok geom)
    (hgt : distC > max 0 (maxSpeed * (now - lastLoc.timestamp))) :
    nextMove m sp strat lastLoc f maxSpeed pid now =
      (.moved
        { y := (m.toGeo (interpolate m geom (claimedMidEdgeOffset m geom snapped closest u
            (max 0 (maxSpeed * (now - lastLoc.timestamp)))))).2,
          x := (m.toGeo (interpolate m geom (claimedMidEdgeOffset m geom snapped closest u
            (max 0 (maxSpeed * (now - lastLoc.timestamp)))))).1,
          timestamp := now } strat, f) := by
  have hB0 : (0:ℚ) ≤ max 0 (maxSpeed * (now - lastLoc.timestamp)) := le_max_left _ _
  have hdC : (if closest = u then project m geom snapped
      else lineLength m geom - project m geom snapped) = distC := by
    unfold distToClosestNodeAlongEdge at hdist
    rw [hed] at hdist
    dsimp only at hdist
    rw [hgeom] at hdist
    exact Except.ok.inj hdist
  unfold nextMove nextMoveCore
  dsimp only
  rw [hsnap]
  dsimp only
  rw [hclosest]
  dsimp only
  rw [hdist]
  dsimp only
  rw [if_pos hgt]
  unfold midEdgeMove
  rw [hed]
  dsimp only
  rw [hgeom]
  dsimp only
  unfold claimedMidEdgeOffset
  by_cases hcu : closest = u
  · rw [if_pos hcu] at hdC ⊢
    rw [if_pos hcu]
    have h1 : ¬ (distC - max 0 (maxSpeed * (now - lastLoc.timestamp)) < 0) := by
      simp only [not_lt]
      linarith [hgt]
    rw [if_neg h1, hdC]
  · rw [if_neg hcu] at hdC ⊢
    rw [if_neg hcu]
    have h2 : ¬ (lineLength m geom - distC + max 0 (maxSpeed * (now - lastLoc.timestamp))
        > lineLength m geom) := by
      simp only [not_lt]
      linarith [hgt]
    rw [if_neg h2]
    have h3 : lineLength m geom - distC + max 0 (maxSpeed * (now - lastLoc.timestamp))
        = project m geom snapped + max 0 (maxSpeed * (now - lastLoc.timestamp)) := by
      linarith [hdC]
    rw [h3]

/-- A two-node graph with a single straight (no explicit geometry) edge. -/
def gStraight : SpatialGraph :=
  { nodes := [(0, ⟨1, 0⟩), (1, ⟨11, 0⟩)],
    edges := [(0, 1, 0, ⟨none, 10⟩)] }

/-- Witness for C4: snapped at offset 3 on a 10-metre edge, budget
`max 0 (1 × 1) = 1 < 3`, so the agent ends at offset 2, exactly 1 metre
toward the nearer endpoint. -/
theorem mid_edge_move_exact_budget_w :
    nextMove taxicab bfsShortestPath ⟨50, []⟩ ⟨0, 4, 0⟩ ⟨gStraight, [], [], []⟩ 1 "p" 1
      = (.moved ⟨0, 3, 1⟩ ⟨50, []⟩, ⟨gStraight, [], [], []⟩) := by
  have hnd0 : nodeData? gStraight 0 = some ⟨1, 0⟩ := by simp [nodeData?, gStraight]
  have hnd1 : nodeData? gStraight 1 = some ⟨11, 0⟩ := by simp [nodeData?, gStraight]
  have hne : nearestEdges gStraight 4 0 = some (0, 1, 0) := by
    simp [nearestEdges, gStraight]
  have hedq : edgeData? gStraight 0 1 0 = some ⟨none, 10⟩ := by simp [edgeData?, gStraight]
  have hrg : resolveEdgeGeom gStraight 0 1 ⟨none, 10⟩ = .ok [((1:ℚ), (0:ℚ)), (11, 0)] := by
    simp [resolveEdgeGeom, straightGeom, hnd0, hnd1]
  have hproj : project taxicab [((1:ℚ), (0:ℚ)), (11, 0)] (4, 0) = 3 := by
    norm_num [project, segPairs, projParam, lerp, sqDist, taxicab, List.foldl]
  have hip3 : interpolate taxicab [((1:ℚ), (0:ℚ)), (11, 0)] 3 = (4, 0) := by
    norm_num [interpolate, interpGo, lerp, taxicab]
  have hip2 : interpolate taxicab [((1:ℚ), (0:ℚ)), (11, 0)] 2 = (3, 0) := by
    norm_num [interpolate, interpGo, lerp, taxicab]
  have hsnap : snapToEdge taxicab gStraight (4, 0) = .ok ((4, 0), 0, 1, 0) := by
    unfold snapToEdge
    rw [show ((4:ℚ), (0:ℚ)).1 = (4:ℚ) from rfl, show ((4:ℚ), (0:ℚ)).2 = (0:ℚ) from rfl,
      hne]
    dsimp only
    rw [hedq]
    dsimp only
    rw [hrg]
    dsimp only
    rw [hproj, hip3]
  have hclosest : getClosestNode gStraight 0 1 (4, 0) = .ok 0 := by
    unfold getClosestNode
    rw [hnd0, hnd1]
    dsimp only
    norm_num [sqDist]
  have hdist : distToClosestNodeAlongEdge taxicab gStraight (4, 0) 0 1 0 0 = .ok 3 := by
    unfold distToClosestNodeAlongEdge
    rw [hedq]
    dsimp only
    rw [hrg]
    dsimp only
    rw [hproj]
    simp
  have h := mid_edge_move_exact_budget taxicab bfsShortestPath ⟨50, []⟩ ⟨0, 4, 0⟩
      ⟨gStraight, [], [], []⟩ 1 "p" 1 ((4:ℚ), (0:ℚ)) 0 1 0 0 3 ⟨none, 10⟩
      [((1:ℚ), (0:ℚ)), (11, 0)]
      (by simpa [taxicab] using hsnap) hclosest hdist hedq hrg (by norm_num)
  rw [h]
  simp only [claimedMidEdgeOffset, hproj]
  norm_num
  simp only [hip2]
  simp [taxicab]

/-- A graph with two disconnected components: edge `0 → 1` and edge
`2 → 3`. -/
def gDisc : SpatialGraph :=
  { nodes := [(0, ⟨1, 0⟩), (1, ⟨11, 0⟩), (2, ⟨101, 0⟩), (3, ⟨111, 0⟩)],
    edges := [(0, 1, 0, ⟨none, 10⟩), (2, 3, 0, ⟨none, 10⟩)] }

/-- A playing field over the disconnected graph with one registered agent
whose (empty-trajectory) previous location snaps into the first component. -/
def fDisc : PlayingField :=
  { graph := gDisc,
    startLocations := [("p", ⟨0, 4, 0⟩)],
    lastKnownLocations := [("p", ⟨0, 4, 0⟩)],
    trajectories := [("p", ⟨none⟩)] }

set_option maxHeartbeats 2000000 in
/-- Claim C1, settled against the code: when the snapped previous and new
locations fall in two disconnected components, the shortest-path
collaborator finds no route and returns `None` — and
`update_current_location` then subscripts it (`path[1:-1]`), raising
`TypeError` instead of returning quietly.  No trajectory update happens (the
state at the raise is unchanged), but the call does throw. -/
theorem no_path_update_raises :
    bfsShortestPath gDisc 0 3 = none ∧
      updateCurrentLocation taxicab bfsShortestPath fDisc "p" ⟨0, 108, 0⟩ 5
        = (some PyError.typeError, fDisc) ∧
      (updateCurrentLocation taxicab bfsShortestPath fDisc "p" ⟨0, 108, 0⟩ 5).2.trajectories
        = fDisc.trajectories := by
  have hnd0 : nodeData? gDisc 0 = some ⟨1, 0⟩ := by simp [nodeData?, gDisc]
  have hnd1 : nodeData? gDisc 1 = some ⟨11, 0⟩ := by simp [nodeData?, gDisc]
  have hnd2 : nodeData? gDisc 2 = some ⟨101, 0⟩ := by simp [nodeData?, gDisc]
  have hnd3 : nodeData? gDisc 3 = some ⟨111, 0⟩ := by simp [nodeData?, gDisc]
  have hgeo01 : edgeGeomForDist gDisc 0 1 ⟨none, 10⟩ = [((1:ℚ), (0:ℚ)), (11, 0)] := by
    simp [edgeGeomForDist, hnd0, hnd1]
  have hgeo23 : edgeGeomForDist gDisc 2 3 ⟨none, 10⟩ = [((101:ℚ), (0:ℚ)), (111, 0)] := by
    simp [edgeGeomForDist, hnd2, hnd3]
  have hdA4 : sqDistToPolyline (4, 0) [((1:ℚ), (0:ℚ)), (11, 0)] = 0 := by
    norm_num [sqDistToPolyline, sqDistToSeg, segPairs, projParam, lerp, sqDist]
  have hdB4 : sqDistToPolyline (4, 0) [((101:ℚ), (0:ℚ)), (111, 0)] = 9409 := by
    norm_num [sqDistToPolyline, sqDistToSeg, segPairs, projParam, lerp, sqDist]
  have hdA108 : sqDistToPolyline (108, 0) [((1:ℚ), (0:ℚ)), (11, 0)] = 9409 := by
    norm_num [sqDistToPolyline, sqDistToSeg, segPairs, projParam, lerp, sqDist]
  have hdB108 : sqDistToPolyline (108, 0) [((101:ℚ), (0:ℚ)), (111, 0)] = 0 := by
    norm_num [sqDistToPolyline, sqDistToSeg, segPairs, projParam, lerp, sqDist]
  have hedges : gDisc.edges
      = [(0, 1, 0, (⟨none, 10⟩ : EdgeData)), (2, 3, 0, (⟨none, 10⟩ : EdgeData))] := rfl
  have hne4 : nearestEdges gDisc 4 0 = some (0, 1, 0) := by
    unfold nearestEdges
    rw [hedges]
    dsimp only [List.map, List.foldl]
    rw [hgeo01, hgeo23, hdA4, hdB4]
    norm_num
  have hne108 : nearestEdges gDisc 108 0 = some (2, 3, 0) := by
    unfold nearestEdges
    rw [hedges]
    dsimp only [List.map, List.foldl]
    rw [hgeo01, hgeo23, hdA108, hdB108]
    norm_num
  have hed01 : edgeData? gDisc 0 1 0 = some ⟨none, 10⟩ := by simp [edgeData?, gDisc]
  have hed23 : edgeData? gDisc 2 3 0 = some ⟨none, 10⟩ := by simp [edgeData?, gDisc]
  have hrg01 : resolveEdgeGeom gDisc 0 1 ⟨none, 10⟩ = .ok [((1:ℚ), (0:ℚ)), (11, 0)] := by
    simp [resolveEdgeGeom, straightGeom, hnd0, hnd1]
  have hrg23 : resolveEdgeGeom gDisc 2 3 ⟨none, 10⟩ = .ok [((101:ℚ), (0:ℚ)), (111, 0)] := by
    simp [resolveEdgeGeom, straightGeom, hnd2, hnd3]
  have hproj4 : project taxicab [((1:ℚ), (0:ℚ)), (11, 0)] (4, 0) = 3 := by
    norm_num [project, segPairs, projParam, lerp, sqDist, taxicab, List.foldl]
  have hip01 : interpolate taxicab [((1:ℚ), (0:ℚ)), (11, 0)] 3 = (4, 0) := by
    norm_num [interpolate, interpGo, lerp, taxicab]
  have hproj108 : project taxicab [((101:ℚ), (0:ℚ)), (111, 0)] (108, 0) = 7 := by
    norm_num [project, segPairs, projParam, lerp, sqDist, taxicab, List.foldl]
  have hip23 : interpolate taxicab [((101:ℚ), (0:ℚ)), (111, 0)] 7 = (108, 0) := by
    norm_num [interpolate, interpGo, lerp, taxicab]
  have hsnap4 : snapToEdge taxicab gDisc (4, 0) = .ok ((4, 0), 0, 1, 0) := by
    unfold snapToEdge
    rw [show ((4:ℚ), (0:ℚ)).1 = (4:ℚ) from rfl, show ((4:ℚ), (0:ℚ)).2 = (0:ℚ) from rfl, hne4]
    dsimp only
    rw [hed01]
    dsimp only
    rw [hrg01]
    dsimp only
    rw [hproj4, hip01]
  have hsnap108 : snapToEdge taxicab gDisc (108, 0) = .ok ((108, 0), 2, 3, 0) := by
    unfold snapToEdge
    rw [show ((108:ℚ), (0:ℚ)).1 = (108:ℚ) from rfl,
      show ((108:ℚ), (0:ℚ)).2 = (0:ℚ) from rfl, hne108]
    dsimp only
    rw [hed23]
    dsimp only
    rw [hrg23]
    dsimp only
    rw [hproj108, hip23]
  have hfar01 : getFarthestNode gDisc 0 1 (108, 0) = .ok 0 := by
    unfold getFarthestNode
    rw [hnd0, hnd1]
    dsimp only
    norm_num [sqDist]
  have hfar23 : getFarthestNode gDisc 2 3 (4, 0) = .ok 3 := by
    unfold getFarthestNode
    rw [hnd2, hnd3]
    dsimp only
    norm_num [sqDist]
  have hbfs : bfsShortestPath gDisc 0 3 = none := by
    simp [bfsShortestPath, bfsAux, gDisc, successors, dedupFirst]
  have hcross : crossEdgePath taxicab bfsShortestPath gDisc (4, 0) 0 1 (108, 0) 2 3
      = .error .typeError := by
    unfold crossEdgePath
    rw [hfar01]
    dsimp only
    rw [hfar23]
    dsimp only
    rw [hbfs]
  have hxy : getPlayerLastKnownLocationXY fDisc "p" = some (4, 0) := by
    simp [getPlayerLastKnownLocationXY, fDisc, Trajectory.isEmpty, List.lookup]
  have hcompute : computeNewPathGeo taxicab bfsShortestPath fDisc "p" ⟨0, 108, 0⟩
      = .error .typeError := by
    unfold computeNewPathGeo
    rw [hxy]
    dsimp only
    rw [show fDisc.graph = gDisc from rfl]
    rw [show taxicab.toProj ((4:ℚ), (0:ℚ)) = ((4:ℚ), (0:ℚ)) from rfl, hsnap4]
    dsimp only
    rw [show (taxicab.toProj
        ((Location.mk 0 108 0).x, (Location.mk 0 108 0).y)) = ((108:ℚ), (0:ℚ)) from rfl,
      hsnap108]
    dsimp only
    rw [if_neg (by decide)]
    rw [hcross]
  have hlk : List.lookup "p" fDisc.trajectories = some ⟨none⟩ := by
    simp [fDisc, List.lookup]
  have hupd : updateCurrentLocation taxicab bfsShortestPath fDisc "p" ⟨0, 108, 0⟩ 5
      = (some PyError.typeError, fDisc) := by
    unfold updateCurrentLocation updateGo
    rw [hlk]
    dsimp only
    rw [hcompute]
  exact ⟨hbfs, hupd, by rw [hupd]⟩

/-- Claim C9: neither `update_current_location` nor `next_move` mutates the
shared graph — the field state after any `update_current_location` call
carries the same graph, and a `next_move` call leaves the whole field state
unchanged. -/
theorem graph_never_mutated (m : Metric)
    (sp : SpatialGraph → Node → Node → Option (List Node)) (f : PlayingField) (pid : String)
    (newLoc : Location) (now : ℚ) (strat : CloseLoopStrategy) (lastLoc : Location)
    (maxSpeed : ℚ) :
    (updateCurrentLocation m sp f pid newLoc now).2.graph = f.graph ∧
      (nextMove m sp strat lastLoc f maxSpeed pid now).2 = f := by
  constructor
  · unfold updateCurrentLocation updateGo
    cases hl : f.trajectories.lookup pid with
    | none => simp
    | some traj =>
      cases hc : computeNewPathGeo m sp f pid newLoc with
      | error e => simp
      | ok pr => simp
  · unfold nextMove
    cases h : nextMoveCore m sp strat lastLoc f maxSpeed pid now with
    | error e => simp
    | ok p =>
      obtain ⟨o, s⟩ := p
      cases o <;> simp

end Loop
